import Mathlib

/-!
Shallow embedding of the smart-mirror core: the measurement engine
(measurements-calculator-code.py, class MeasurementCalculator) and the garment
overlay engine (clothing-overlay-code.py, class ClothingOverlay).

Modelling conventions:
* Python floats are modelled as exact rationals; decimal literals such as 0.15,
  1.1 or 3.14159 become the exact fractions 15/100, 11/10, 314159/100000.
* Python `int(x)` on the non-negative quantities appearing in the overlay code
  is floor, and all those quantities are ratios of integers with a fixed
  positive denominator, so `int(a * 1.5)` is embedded as `(a * 3) / 2` on ℤ
  (Lean's ℤ division is floor division for positive divisors), and Python's
  integer `//` likewise maps to ℤ division.
* `math.sqrt` is kept abstract: every definition and theorem is parametric in a
  function `sq : ℚ → ℚ` interpreting it.  No claim below depends on its values.
* Python `round(x, 1)` is embedded as `round (x * 10) / 10`; the tie-breaking
  rule (Python rounds half to even) is irrelevant to every claim below.
* The single piece of mutable state, the calculator's pixel-to-cm field
  (0.2 at construction), is threaded explicitly: `calculate_from_keypoints`
  takes the current value and returns the updated one.
* `overlay_garment` can (a) return the unmodified frame, (b) raise inside
  cv2.resize (OpenCV rejects an empty source or an empty target size with an
  exception), or (c) run off the end of the function body, which in Python
  returns None.  Its result type is therefore `Except Unit (Option Image3)`,
  with `Except.error ()` for the exception and `Except.ok none` for the
  implicit None.
-/

/-- Keypoint dict produced by PoseEstimator.get_keypoints: integer pixel
coordinates, float relative depth and visibility. -/
structure Keypoint where
  x : ℤ
  y : ℤ
  z : ℚ
  v : ℚ
deriving DecidableEq

/-- The keypoints dict (MediaPipe landmark index → keypoint); an absent or
empty dict is the empty list. -/
abbrev KeypointMap := List (Nat × Keypoint)

/-- keypoints.get(i) -/
def kget (kp : KeypointMap) (i : Nat) : Option Keypoint :=
  kp.lookup i

/-- Python round(x, 1). -/
def round1 (q : ℚ) : ℚ :=
  ((round (q * 10) : ℤ) : ℚ) / 10

/-- MeasurementCalculator.distance (line 29): Euclidean distance on (x, y),
with math.sqrt abstracted as the parameter sq. -/
def distance (sq : ℚ → ℚ) (p1 p2 : Keypoint) : ℚ :=
  sq ((((p1.x - p2.x) ^ 2 + (p1.y - p2.y) ^ 2 : ℤ) : ℚ))

/-- The measurements dict built by calculate_from_keypoints, one optional slot
per key the code can insert (the size label is added separately). -/
structure Measurements where
  shoulder_width : Option ℚ := none
  arm_length : Option ℚ := none
  torso_length : Option ℚ := none
  leg_length : Option ℚ := none
  estimated_height : Option ℚ := none
  chest : Option ℚ := none
  hips : Option ℚ := none
  waist : Option ℚ := none
deriving DecidableEq

/-- The returned dict: the measurement slots plus the 'size' entry. -/
structure MeasurementSet where
  vals : Measurements
  size : String
deriving DecidableEq

/-- Python truthiness of the measurements dict (`not measurements`). -/
def measurementsIsEmpty (m : Measurements) : Bool :=
  m.shoulder_width.isNone && m.arm_length.isNone && m.torso_length.isNone &&
  m.leg_length.isNone && m.estimated_height.isNone && m.chest.isNone &&
  m.hips.isNone && m.waist.isNone

/-- MeasurementCalculator.determine_size (lines 152-174). -/
def determine_size (m : Measurements) : String :=
  if measurementsIsEmpty m || m.chest.isNone then "M"
  else
    let chest := m.chest.getD 0
    if chest < 85 then "XS"
    else if chest < 95 then "S"
    else if chest < 105 then "M"
    else if chest < 115 then "L"
    else if chest < 125 then "XL"
    else "XXL"

/-- mid_hip of lines 47-55: defined when both hips are present; x, y use
Python integer //, z, v use float division. -/
def mid_hipOf (kp : KeypointMap) : Option Keypoint :=
  match kget kp 23, kget kp 24 with
  | some lh, some rh =>
      some ⟨(lh.x + rh.x) / 2, (lh.y + rh.y) / 2, (lh.z + rh.z) / 2, (lh.v + rh.v) / 2⟩
  | _, _ => none

/-- shoulder_width entry (lines 60-65). -/
def shoulder_widthOf (sq : ℚ → ℚ) (r : ℚ) (kp : KeypointMap) : Option ℚ :=
  match kget kp 11, kget kp 12 with
  | some ls, some rs => some (round1 (distance sq ls rs * r))
  | _, _ => none

/-- arm_lengths list (lines 67-88): one entry per arm whose shoulder, elbow
and wrist are all present. -/
def arm_lengthsOf (sq : ℚ → ℚ) (r : ℚ) (kp : KeypointMap) : List ℚ :=
  (match kget kp 11, kget kp 13, kget kp 15 with
   | some s, some e, some w => [(distance sq s e + distance sq e w) * r]
   | _, _, _ => []) ++
  (match kget kp 12, kget kp 14, kget kp 16 with
   | some s, some e, some w => [(distance sq s e + distance sq e w) * r]
   | _, _, _ => [])

/-- arm_length entry (lines 90-91): the average, when any arm qualified. -/
def arm_lengthOf (sq : ℚ → ℚ) (r : ℚ) (kp : KeypointMap) : Option ℚ :=
  if arm_lengthsOf sq r kp = [] then none
  else some (round1 ((arm_lengthsOf sq r kp).sum / (arm_lengthsOf sq r kp).length))

/-- torso_length entry (lines 93-97): needs the neck approximation (index 0)
and mid_hip. -/
def torso_lengthOf (sq : ℚ → ℚ) (r : ℚ) (kp : KeypointMap) : Option ℚ :=
  match kget kp 0, mid_hipOf kp with
  | some n, some mh => some (round1 (distance sq n mh * r))
  | _, _ => none

/-- leg_lengths list (lines 99-120). -/
def leg_lengthsOf (sq : ℚ → ℚ) (r : ℚ) (kp : KeypointMap) : List ℚ :=
  (match kget kp 23, kget kp 25, kget kp 27 with
   | some h, some k, some a => [(distance sq h k + distance sq k a) * r]
   | _, _, _ => []) ++
  (match kget kp 24, kget kp 26, kget kp 28 with
   | some h, some k, some a => [(distance sq h k + distance sq k a) * r]
   | _, _, _ => [])

/-- leg_length entry (lines 122-123). -/
def leg_lengthOf (sq : ℚ → ℚ) (r : ℚ) (kp : KeypointMap) : Option ℚ :=
  if leg_lengthsOf sq r kp = [] then none
  else some (round1 ((leg_lengthsOf sq r kp).sum / (leg_lengthsOf sq r kp).length))

/-- estimated_height entry (lines 125-131), computed from the already rounded
torso_length and leg_length dict entries plus 0.2 torso_length of head. -/
def estimated_heightOf (sq : ℚ → ℚ) (r : ℚ) (kp : KeypointMap) : Option ℚ :=
  match torso_lengthOf sq r kp, leg_lengthOf sq r kp with
  | some t, some l => some (round1 (t + l + t * (2 / 10)))
  | _, _ => none

/-- chest entry (lines 135-137). -/
def chestOf (sq : ℚ → ℚ) (r : ℚ) (kp : KeypointMap) : Option ℚ :=
  match kget kp 11, kget kp 12 with
  | some ls, some rs =>
      some (round1 (distance sq ls rs * (14 / 10) * r * (314159 / 100000) / 2))
  | _, _ => none

/-- hips entry (lines 139-141). -/
def hipsOf (sq : ℚ → ℚ) (r : ℚ) (kp : KeypointMap) : Option ℚ :=
  match kget kp 23, kget kp 24 with
  | some lh, some rh =>
      some (round1 (distance sq lh rh * (12 / 10) * r * (314159 / 100000) / 2))
  | _, _ => none

/-- waist entry (lines 143-145): hip pixel width times 0.9, same formula. -/
def waistOf (sq : ℚ → ℚ) (r : ℚ) (kp : KeypointMap) : Option ℚ :=
  match kget kp 23, kget kp 24 with
  | some lh, some rh =>
      some (round1 (distance sq lh rh * (12 / 10) * (9 / 10) * r * (314159 / 100000) / 2))
  | _, _ => none

/-- Body of calculate_from_keypoints after the calibration update
(lines 43-148): every entry reads the same (already updated) pixel-to-cm value
`r`.  Landmark indices are the ones fixed in __init__ (11, 12, 13, 14, 15, 16,
23, 24, 25, 26, 27, 28, and 0 for the neck approximation). -/
def calcMeasurements (sq : ℚ → ℚ) (r : ℚ) (kp : KeypointMap) : Measurements :=
  { shoulder_width := shoulder_widthOf sq r kp, arm_length := arm_lengthOf sq r kp,
    torso_length := torso_lengthOf sq r kp, leg_length := leg_lengthOf sq r kp,
    estimated_height := estimated_heightOf sq r kp, chest := chestOf sq r kp,
    hips := hipsOf sq r kp, waist := waistOf sq r kp }

/-- Initial value 0.2 of the calculator's pixel-to-cm field (line 27). -/
def pixel_to_cm_init : ℚ := 2 / 10

/-- MeasurementCalculator.calculate_from_keypoints (lines 33-150), with the
pixel-to-cm field threaded through: the argument `r` is its value before the
call and the second component of the result its value after the call. -/
def calculate_from_keypoints (sq : ℚ → ℚ) (r : ℚ) (kp : KeypointMap)
    (actual_distance : ℚ) : Option MeasurementSet × ℚ :=
  if kp = [] then (none, r)
  else
    let r' := if 30 < actual_distance ∧ actual_distance < 300
              then 15 / 100 + actual_distance / 1000 else r
    let m := calcMeasurements sq r' kp
    (some ⟨m, determine_size m⟩, r')

/-- One call of calculate_from_keypoints viewed as a transition of the
pixel-to-cm state. -/
def calibStep (sq : ℚ → ℚ) (r : ℚ) (call : KeypointMap × ℚ) : ℚ :=
  (calculate_from_keypoints sq r call.1 call.2).2

/-- The pixel-to-cm state after a sequence of calls, starting from `r`. -/
def calibRun (sq : ℚ → ℚ) (r : ℚ) (calls : List (KeypointMap × ℚ)) : ℚ :=
  calls.foldl (calibStep sq) r

/-- A camera frame: a 3-channel image. -/
structure Image3 where
  h : Nat
  w : Nat
  pix : Nat → Nat → Nat × Nat × Nat

/-- A garment asset: a 4-channel (BGRA) image. -/
structure GarmentImg where
  h : Nat
  w : Nat
  pix : Nat → Nat → Nat × Nat × Nat × Nat

/-- The garment rectangle computed by overlay_garment before clamping:
target width and height passed to cv2.resize, and the raw anchor. -/
structure Placement where
  gw : ℤ
  gh : ℤ
  rawx : ℤ
  rawy : ℤ
deriving DecidableEq

/-- The upper-body garment kinds (lines 112 and 122). -/
def upperKinds : List String := ["tshirt", "shirt", "jacket"]

/-- The key set of the garments dict built in __init__ (lines 12-29). -/
def garmentKinds : List String := ["tshirt", "shirt", "jacket", "pants"]

/-- Upper-body sizing (lines 122-148).
garment_width = int(shoulder_width * 1.5); garment_height =
int((left_length + right_length) / 2 * 1.1) when both hips are present, else
int(garment_width * 1.5); pos = (min shoulder x,
min shoulder y - int(garment_height * 0.1)).  All int() arguments are
non-negative, so int() is ℤ floor division by the denominator. -/
def upperPlacement (ls rs : Keypoint) (lh rh : Option Keypoint) : Placement :=
  let shoulder_width : ℤ := |rs.x - ls.x|
  let gw : ℤ := (shoulder_width * 3) / 2
  let gh : ℤ :=
    match lh, rh with
    | some lhp, some rhp => ((|lhp.y - ls.y| + |rhp.y - rs.y|) * 11) / 20
    | _, _ => (gw * 3) / 2
  ⟨gw, gh, min ls.x rs.x, min ls.y rs.y - gh / 10⟩

/-- Lower-body sizing (lines 150-181).
garment_width = int(hip_width * 1.2); garment_height =
int((left_length + right_length) / 2 * 1.0) from the ankles when both are
present, else int((left_length * 2.1 + right_length * 2.1) / 2) from the knees
when both are present, else int(garment_width * 2); pos = (min hip x,
min hip y). -/
def pantsPlacement (lh rh : Keypoint) (lk rk la ra : Option Keypoint) : Placement :=
  let hip_width : ℤ := |rh.x - lh.x|
  let gw : ℤ := (hip_width * 6) / 5
  let gh : ℤ :=
    match la, ra with
    | some lap, some rap => (|lap.y - lh.y| + |rap.y - rh.y|) / 2
    | _, _ =>
      match lk, rk with
      | some lkp, some rkp => ((|lkp.y - lh.y| + |rkp.y - rh.y|) * 21) / 20
      | _, _ => gw * 2
  ⟨gw, gh, min lh.x rh.x, min lh.y rh.y⟩

/-- The anchor clamp of lines 184-185: max(0, min(raw, dim - rect)). -/
def clampPos (raw rect dim : ℤ) : ℤ :=
  max 0 (min raw (dim - rect))

/-- Length of the numpy basic slice a[b:e] of an axis of length n
(indices clipped into [0, n], length floored at 0). -/
def sliceLen (n b e : ℤ) : ℤ :=
  max 0 (min e n - max 0 (min b n))

/-- Lines 139-205 after the placement is fixed: cv2.resize, anchor clamp, ROI
computation, shape check.  cv2.resize raises when its source image is empty or
when the requested size has a non-positive dimension (modelled as
Except.error ()).  After the shape check the source function has no further
statement - the compositing marked by the final '# Apply' comment is missing -
so Python falls off the end and returns None (modelled as Except.ok none). -/
def overlayFinish (frame : Image3) (gimg : GarmentImg) (p : Placement) :
    Except Unit (Option Image3) :=
  if gimg.h = 0 ∨ gimg.w = 0 then .error ()
  else if p.gw ≤ 0 ∨ p.gh ≤ 0 then .error ()
  else
    let h : ℤ := frame.h
    let w : ℤ := frame.w
    let pos_x := clampPos p.rawx p.gw w
    let pos_y := clampPos p.rawy p.gh h
    let roi_w := min p.gw (w - pos_x)
    let roi_h := min p.gh (h - pos_y)
    if roi_w ≤ 0 ∨ roi_h ≤ 0 then .ok (some frame)
    else if (sliceLen h pos_y (pos_y + roi_h), sliceLen w pos_x (pos_x + roi_w)) ≠
            (sliceLen p.gh 0 roi_h, sliceLen p.gw 0 roi_w) then .ok (some frame)
    else .ok none

/-- The overlay component: its garments catalog, as the nested lookup
self.garments.get(kind, empty).get(gender).  The key set of the outer dict
is fixed to garmentKinds by __init__. -/
structure ClothingOverlay where
  garments : String → String → Option GarmentImg

/-- ClothingOverlay.overlay_garment (lines 91-205).  The distance argument is
never read by the body.  Frame copies are values, so the copy of line 118 is
the frame itself. -/
def overlay_garment (co : ClothingOverlay) (frame : Image3) (kp : KeypointMap)
    (garment_type gender : String) (_distance : ℚ) : Except Unit (Option Image3) :=
  if kp = [] ∨ garment_type ∉ garmentKinds then .ok (some frame)
  else
    match co.garments garment_type gender with
    | none => .ok (some frame)
    | some gimg =>
      let lh := kget kp 23
      let rh := kget kp 24
      if garment_type ∈ upperKinds then
        match kget kp 11, kget kp 12 with
        | some lsp, some rsp => overlayFinish frame gimg (upperPlacement lsp rsp lh rh)
        | _, _ => .ok (some frame)
      else
        match lh, rh with
        | some lhp, some rhp =>
            overlayFinish frame gimg
              (pantsPlacement lhp rhp (kget kp 25) (kget kp 26) (kget kp 27) (kget kp 28))
        | _, _ => .ok (some frame)

/-- Size bands exactly as the claim states them: a pure function of the chest
value with half-open bands, defaulting to "M" when chest is absent. -/
def sizeOfChest (c : Option ℚ) : String :=
  match c with
  | none => "M"
  | some chest =>
    if chest < 85 then "XS"
    else if chest < 95 then "S"
    else if chest < 105 then "M"
    else if chest < 115 then "L"
    else if chest < 125 then "XL"
    else "XXL"

/-- All three landmarks of one limb are present. -/
def limbComplete (kp : KeypointMap) (i j k : Nat) : Prop :=
  (kget kp i).isSome ∧ (kget kp j).isSome ∧ (kget kp k).isSome

/-- Field-presence contract of the measurements dict, as the claim states it:
each field is present exactly when its prerequisite landmarks are present. -/
def FieldsSpec (kp : KeypointMap) (m : Measurements) : Prop :=
  (m.arm_length.isSome ↔ (limbComplete kp 11 13 15 ∨ limbComplete kp 12 14 16)) ∧
  (m.leg_length.isSome ↔ (limbComplete kp 23 25 27 ∨ limbComplete kp 24 26 28)) ∧
  (m.torso_length.isSome ↔
    ((kget kp 0).isSome ∧ (kget kp 23).isSome ∧ (kget kp 24).isSome)) ∧
  (m.estimated_height.isSome ↔ (m.torso_length.isSome ∧ m.leg_length.isSome)) ∧
  (m.chest.isSome ↔ ((kget kp 11).isSome ∧ (kget kp 12).isSome)) ∧
  (m.shoulder_width.isSome ↔ ((kget kp 11).isSome ∧ (kget kp 12).isSome)) ∧
  (m.hips.isSome ↔ ((kget kp 23).isSome ∧ (kget kp 24).isSome)) ∧
  (m.waist.isSome ↔ ((kget kp 23).isSome ∧ (kget kp 24).isSome))

/-- Lower-body sizing as the claim states it, over the placement the code
computes: width is 1.2 times the hip-to-hip pixel distance (the horizontal
pixel separation the code measures), the height follows the
ankles-then-knees-then-width preference order, the anchor is the componentwise
minimum of the hip coordinates; the products are floored to integer pixels. -/
def PantsSpec (lh rh : Keypoint) (lk rk la ra : Option Keypoint) (p : Placement) : Prop :=
  p.gw = ⌊(12 / 10 : ℚ) * ((|rh.x - lh.x| : ℤ) : ℚ)⌋ ∧
  (∀ lap rap, la = some lap → ra = some rap →
    p.gh = ⌊(((|lap.y - lh.y| + |rap.y - rh.y| : ℤ) : ℚ) / 2) * 1⌋) ∧
  ((la = none ∨ ra = none) → ∀ lkp rkp, lk = some lkp → rk = some rkp →
    p.gh = ⌊(21 / 10 : ℚ) * (((|lkp.y - lh.y| + |rkp.y - rh.y| : ℤ) : ℚ) / 2)⌋) ∧
  ((la = none ∨ ra = none) → (lk = none ∨ rk = none) → p.gh = 2 * p.gw) ∧
  p.rawx = min lh.x rh.x ∧ p.rawy = min lh.y rh.y

/-- Identity interpretation of math.sqrt, used for concrete instantiations
(no claim depends on the interpretation). -/
def sq0 : ℚ → ℚ := fun q => q

/-- A 640x480 black frame. -/
def frame640 : Image3 := ⟨480, 640, fun _ _ => (0, 0, 0)⟩

/-- A small 10x10 frame. -/
def frame10 : Image3 := ⟨10, 10, fun _ _ => (0, 0, 0)⟩

/-- A 200x300 garment asset (the placeholder size for upper-body garments). -/
def garment0 : GarmentImg := ⟨300, 200, fun _ _ => (0, 120, 255, 180)⟩

/-- A catalog that has an asset for every kind and variant. -/
def catalog0 : ClothingOverlay := ⟨fun _ _ => some garment0⟩

/-- Shoulders only, 100 px apart at equal height. -/
def kpUpper : KeypointMap := [(11, ⟨100, 50, 0, 0⟩), (12, ⟨200, 50, 0, 0⟩)]

/-- Shoulders sharing the same x coordinate: the upper-body width rounds to 0. -/
def kpUpperDegen : KeypointMap := [(11, ⟨100, 50, 0, 0⟩), (12, ⟨100, 80, 0, 0⟩)]

/-- Hips only, 80 px apart. -/
def kpPants : KeypointMap := [(23, ⟨110, 300, 0, 0⟩), (24, ⟨190, 300, 0, 0⟩)]

/-- Hips 50 px apart near the origin: the pants rectangle (60x120) is larger
than frame10 on both axes. -/
def kpHipsWide : KeypointMap := [(23, ⟨0, 0, 0, 0⟩), (24, ⟨50, 0, 0, 0⟩)]

/-- Nose/neck, both shoulders and both hips (the spec's end-to-end example). -/
def kpMeas : KeypointMap :=
  [(0, ⟨150, 40, 0, 0⟩), (11, ⟨100, 50, 0, 0⟩), (12, ⟨200, 50, 0, 0⟩),
   (23, ⟨110, 300, 0, 0⟩), (24, ⟨190, 300, 0, 0⟩)]

/-- C3: for a non-empty keypoint mapping, a proximity strictly inside (30, 300)
sets the pixel-to-cm value to exactly 0.15 + proximity/1000 and that single
value parameterises every measurement of the call; any proximity outside the
open interval leaves the value unchanged, and it is 0.2 before any update. -/
theorem calibration_update (sq : ℚ → ℚ) (r : ℚ) (kp : KeypointMap) (d : ℚ)
    (hkp : kp ≠ []) :
    ((30 < d ∧ d < 300) →
      (calculate_from_keypoints sq r kp d).2 = 15 / 100 + d / 1000 ∧
      (calculate_from_keypoints sq r kp d).1 =
        some ⟨calcMeasurements sq (15 / 100 + d / 1000) kp,
              determine_size (calcMeasurements sq (15 / 100 + d / 1000) kp)⟩) ∧
    (¬(30 < d ∧ d < 300) → (calculate_from_keypoints sq r kp d).2 = r) ∧
    pixel_to_cm_init = 2 / 10 := by
  unfold calculate_from_keypoints
  refine ⟨fun hd => ?_, fun hd => ?_, rfl⟩
  · simp [hkp, hd]
  · simp [hkp, hd]

theorem calibration_update_w :
    (calculate_from_keypoints sq0 (2 / 10) kpMeas 150).2 = 15 / 100 + 150 / 1000 :=
  ((calibration_update sq0 (2 / 10) kpMeas 150 (by decide)).1 (by decide)).1

/-- C4: the size label of every returned measurement set is a pure function of
the chest value with the half-open bands XS below 85, S below 95, M below 105,
L below 115, XL below 125, XXL from 125 on, and defaults to M when the chest
field is absent. -/
theorem size_bands :
    (∀ m : Measurements, determine_size m = sizeOfChest m.chest) ∧
    (∀ (sq : ℚ → ℚ) (r : ℚ) (kp : KeypointMap) (d : ℚ) (ms : MeasurementSet),
      (calculate_from_keypoints sq r kp d).1 = some ms →
      ms.size = sizeOfChest ms.vals.chest) := by
  have h1 : ∀ m : Measurements, determine_size m = sizeOfChest m.chest := by
    intro m
    cases hc : m.chest with
    | none => simp [determine_size, sizeOfChest, hc]
    | some c => simp [determine_size, sizeOfChest, hc, measurementsIsEmpty]
  refine ⟨h1, fun sq r kp d ms h => ?_⟩
  unfold calculate_from_keypoints at h
  by_cases hkp : kp = []
  · simp [hkp] at h
  · simp only [if_neg hkp, Option.some.injEq] at h
    subst h
    exact h1 _

theorem size_bands_w :
    (⟨calcMeasurements sq0 (15 / 100 + 150 / 1000) kpMeas,
      determine_size (calcMeasurements sq0 (15 / 100 + 150 / 1000) kpMeas)⟩ :
      MeasurementSet).size =
    sizeOfChest (calcMeasurements sq0 (15 / 100 + 150 / 1000) kpMeas).chest :=
  size_bands.2 sq0 (2 / 10) kpMeas 150 _ rfl

/-- C6: calculate_from_keypoints is idempotent: a second call with the same
keypoints and the same proximity, starting from the state the first call left
behind, returns the same measurement set. -/
theorem measure_idempotent (sq : ℚ → ℚ) (r : ℚ) (kp : KeypointMap) (d : ℚ) :
    (calculate_from_keypoints sq (calculate_from_keypoints sq r kp d).2 kp d).1 =
    (calculate_from_keypoints sq r kp d).1 := by
  unfold calculate_from_keypoints
  by_cases hkp : kp = [] <;> by_cases hd : 30 < d ∧ d < 300 <;> simp [hkp, hd]

/-- C10: across any sequence of calls starting from the initial state, the
pixel-to-cm value stays strictly between 0.18 and 0.45. -/
theorem calibration_invariant (sq : ℚ → ℚ) (calls : List (KeypointMap × ℚ)) :
    18 / 100 < calibRun sq pixel_to_cm_init calls ∧
    calibRun sq pixel_to_cm_init calls < 45 / 100 := by
  have step : ∀ (r : ℚ) (c : KeypointMap × ℚ), 18 / 100 < r → r < 45 / 100 →
      18 / 100 < calibStep sq r c ∧ calibStep sq r c < 45 / 100 := by
    intro r c h1 h2
    rcases c with ⟨ckp, cd⟩
    by_cases hk : ckp = []
    · simpa [calibStep, calculate_from_keypoints, hk] using And.intro h1 h2
    · by_cases hd : 30 < cd ∧ cd < 300
      · have hv : calibStep sq r (ckp, cd) = 15 / 100 + cd / 1000 := by
          simp [calibStep, calculate_from_keypoints, hk, hd]
        rw [hv]
        exact ⟨by linarith [hd.1], by linarith [hd.2]⟩
      · have hv : calibStep sq r (ckp, cd) = r := by
          simp [calibStep, calculate_from_keypoints, hk, hd]
        rw [hv]
        exact ⟨h1, h2⟩
  have main : ∀ (calls : List (KeypointMap × ℚ)) (r : ℚ), 18 / 100 < r → r < 45 / 100 →
      18 / 100 < calibRun sq r calls ∧ calibRun sq r calls < 45 / 100 := by
    intro calls
    induction calls with
    | nil => intro r h1 h2; exact ⟨h1, h2⟩
    | cons c cs ih =>
        intro r h1 h2
        have hs := step r c h1 h2
        simpa [calibRun, List.foldl] using ih _ hs.1 hs.2
  exact main calls pixel_to_cm_init (by norm_num [pixel_to_cm_init])
    (by norm_num [pixel_to_cm_init])

/-- Field-presence contract holds for the measurements dict the code builds,
whatever the sqrt interpretation, the calibration value and the keypoints. -/
lemma fieldsSpec_calc (sq : ℚ → ℚ) (r : ℚ) (kp : KeypointMap) :
    FieldsSpec kp (calcMeasurements sq r kp) := by
  have harm : (arm_lengthOf sq r kp).isSome ↔
      (limbComplete kp 11 13 15 ∨ limbComplete kp 12 14 16) := by
    unfold arm_lengthOf arm_lengthsOf limbComplete
    cases kget kp 11 <;> cases kget kp 13 <;> cases kget kp 15 <;>
      cases kget kp 12 <;> cases kget kp 14 <;> cases kget kp 16 <;> simp
  have hleg : (leg_lengthOf sq r kp).isSome ↔
      (limbComplete kp 23 25 27 ∨ limbComplete kp 24 26 28) := by
    unfold leg_lengthOf leg_lengthsOf limbComplete
    cases kget kp 23 <;> cases kget kp 25 <;> cases kget kp 27 <;>
      cases kget kp 24 <;> cases kget kp 26 <;> cases kget kp 28 <;> simp
  have htorso : (torso_lengthOf sq r kp).isSome ↔
      ((kget kp 0).isSome ∧ (kget kp 23).isSome ∧ (kget kp 24).isSome) := by
    unfold torso_lengthOf mid_hipOf
    cases kget kp 0 <;> cases kget kp 23 <;> cases kget kp 24 <;> simp
  have hest : (estimated_heightOf sq r kp).isSome ↔
      ((torso_lengthOf sq r kp).isSome ∧ (leg_lengthOf sq r kp).isSome) := by
    unfold estimated_heightOf
    cases torso_lengthOf sq r kp <;> cases leg_lengthOf sq r kp <;> simp
  have hchest : (chestOf sq r kp).isSome ↔
      ((kget kp 11).isSome ∧ (kget kp 12).isSome) := by
    unfold chestOf
    cases kget kp 11 <;> cases kget kp 12 <;> simp
  have hsw : (shoulder_widthOf sq r kp).isSome ↔
      ((kget kp 11).isSome ∧ (kget kp 12).isSome) := by
    unfold shoulder_widthOf
    cases kget kp 11 <;> cases kget kp 12 <;> simp
  have hhips : (hipsOf sq r kp).isSome ↔
      ((kget kp 23).isSome ∧ (kget kp 24).isSome) := by
    unfold hipsOf
    cases kget kp 23 <;> cases kget kp 24 <;> simp
  have hwaist : (waistOf sq r kp).isSome ↔
      ((kget kp 23).isSome ∧ (kget kp 24).isSome) := by
    unfold waistOf
    cases kget kp 23 <;> cases kget kp 24 <;> simp
  exact ⟨harm, hleg, htorso, hest, hchest, hsw, hhips, hwaist⟩

/-- C5: for every non-empty keypoint mapping the returned measurement set has
each field exactly when its prerequisite landmarks are present: arm_length for
a complete arm, leg_length for a complete leg, torso_length for neck and both
hips, estimated_height for torso and leg lengths, chest and shoulder_width for
both shoulders, hips and waist for both hips; absent prerequisites omit the
field rather than zero-filling it. -/
theorem measurement_fields (sq : ℚ → ℚ) (r : ℚ) (kp : KeypointMap) (d : ℚ)
    (hkp : kp ≠ []) :
    ∃ ms, (calculate_from_keypoints sq r kp d).1 = some ms ∧ FieldsSpec kp ms.vals := by
  unfold calculate_from_keypoints
  rw [if_neg hkp]
  exact ⟨_, rfl, fieldsSpec_calc _ _ _⟩

theorem measurement_fields_w :
    ∃ ms, (calculate_from_keypoints sq0 (2 / 10) kpMeas 150).1 = some ms ∧
      FieldsSpec kpMeas ms.vals :=
  measurement_fields sq0 (2 / 10) kpMeas 150 (by decide)

/-- Floor of 1.2 times an integer is the integer division the code computes. -/
lemma floor_mul_six_fifths (n : ℤ) : ⌊(12 / 10 : ℚ) * (n : ℚ)⌋ = n * 6 / 5 := by
  have h : (12 / 10 : ℚ) * (n : ℚ) = ((n * 6 : ℤ) : ℚ) / ((5 : ℕ) : ℚ) := by
    push_cast; ring
  rw [h, Rat.floor_intCast_div_natCast]
  norm_cast

/-- Floor of a half of an integer is the integer division the code computes. -/
lemma floor_half (s : ℤ) : ⌊((s : ℚ) / 2) * 1⌋ = s / 2 := by
  have h : ((s : ℚ) / 2) * 1 = ((s : ℤ) : ℚ) / ((2 : ℕ) : ℚ) := by
    push_cast; ring
  rw [h, Rat.floor_intCast_div_natCast]
  norm_cast

/-- Floor of 2.1 times half an integer is the integer division the code
computes. -/
lemma floor_mul_twentyone_twentieths (s : ℤ) :
    ⌊(21 / 10 : ℚ) * ((s : ℚ) / 2)⌋ = s * 21 / 20 := by
  have h : (21 / 10 : ℚ) * ((s : ℚ) / 2) = ((s * 21 : ℤ) : ℚ) / ((20 : ℕ) : ℚ) := by
    push_cast; ring
  rw [h, Rat.floor_intCast_div_natCast]
  norm_cast

/-- C7: for pants with both hips present the code's placement obeys the
claimed sizing: width 1.2 times the hip-to-hip pixel separation, height by
the ankles / knees / doubled-width preference order, anchor at the
componentwise minimum of the hips; and on the pants path overlay_garment
uses exactly this placement. -/
theorem pants_sizing :
    (∀ (lh rh : Keypoint) (lk rk la ra : Option Keypoint),
      PantsSpec lh rh lk rk la ra (pantsPlacement lh rh lk rk la ra)) ∧
    (∀ (co : ClothingOverlay) (frame : Image3) (kp : KeypointMap)
       (gender : String) (d : ℚ) (gimg : GarmentImg) (lh rh : Keypoint),
      kp ≠ [] → co.garments "pants" gender = some gimg →
      kget kp 23 = some lh → kget kp 24 = some rh →
      overlay_garment co frame kp "pants" gender d =
        overlayFinish frame gimg
          (pantsPlacement lh rh (kget kp 25) (kget kp 26) (kget kp 27) (kget kp 28))) := by
  constructor
  · intro lh rh lk rk la ra
    refine ⟨?_, ?_, ?_, ?_, rfl, rfl⟩
    · show (|rh.x - lh.x| * 6) / 5 = _
      rw [floor_mul_six_fifths]
    · intro lap rap hla hra
      subst hla; subst hra
      show (|lap.y - lh.y| + |rap.y - rh.y|) / 2 = _
      rw [floor_half]
    · intro hor lkp rkp hlk hrk
      subst hlk; subst hrk
      have hgh : (pantsPlacement lh rh (some lkp) (some rkp) la ra).gh =
          ((|lkp.y - lh.y| + |rkp.y - rh.y|) * 21) / 20 := by
        cases la with
        | none => rfl
        | some a =>
          cases ra with
          | none => rfl
          | some b => rcases hor with h | h <;> exact absurd h (by simp)
      rw [hgh, floor_mul_twentyone_twentieths]
    · intro hor1 hor2
      have hgh : (pantsPlacement lh rh lk rk la ra).gh =
          (pantsPlacement lh rh lk rk la ra).gw * 2 := by
        have hank : la = none ∨ ra = none := hor1
        have hkne : lk = none ∨ rk = none := hor2
        cases la <;> cases ra <;> cases lk <;> cases rk <;>
          first
            | rfl
            | (rcases hank with h | h <;> rcases hkne with h' | h' <;> simp_all)
      rw [hgh, mul_comm]
  · intro co frame kp gender d gimg lh rh hkp hcat h23 h24
    unfold overlay_garment
    rw [if_neg (by simp [hkp, garmentKinds]), hcat]
    dsimp only
    rw [if_neg (by simp [upperKinds]), h23, h24]

theorem pants_sizing_w :
    (pantsPlacement ⟨0, 0, 0, 0⟩ ⟨50, 0, 0, 0⟩ none none none none).gh =
    2 * (pantsPlacement ⟨0, 0, 0, 0⟩ ⟨50, 0, 0, 0⟩ none none none none).gw :=
  (pants_sizing.1 ⟨0, 0, 0, 0⟩ ⟨50, 0, 0, 0⟩ none none none none).2.2.2.1
    (Or.inl rfl) (Or.inl rfl)

/-- With a non-empty asset, a positive target rectangle and a non-empty frame,
overlayFinish always reaches the end of the routine (the clamped ROI is
non-empty and the shape check succeeds), so the Python function returns None. -/
lemma overlayFinish_ok_none (frame : Image3) (gimg : GarmentImg) (p : Placement)
    (hg1 : gimg.h ≠ 0) (hg2 : gimg.w ≠ 0) (hw : 0 < p.gw) (hh : 0 < p.gh)
    (hfh : 0 < frame.h) (hfw : 0 < frame.w) :
    overlayFinish frame gimg p = .ok none := by
  unfold overlayFinish clampPos sliceLen
  dsimp only
  split_ifs with h1 h2 h3 h4
  · exact absurd h1 (by omega)
  · exact absurd h2 (by omega)
  · exact absurd h3 (by omega)
  · exfalso
    apply h4
    rw [Prod.mk.injEq]
    constructor <;> omega
  · rfl

/-- C8 counterexample: hips 50 px apart on a 10x10 frame give a 60x120 pants
rectangle, larger than the frame on both axes, yet the call is not a no-op
returning the input frame: the code clamps the anchor to 0, crops the ROI to
the frame, passes the shape check and returns None. -/
theorem oversize_noop_cex :
    (frame10.w : ℤ) < (pantsPlacement ⟨0, 0, 0, 0⟩ ⟨50, 0, 0, 0⟩ none none none none).gw ∧
    (frame10.h : ℤ) < (pantsPlacement ⟨0, 0, 0, 0⟩ ⟨50, 0, 0, 0⟩ none none none none).gh ∧
    overlay_garment catalog0 frame10 kpHipsWide "pants" "male" 100 ≠
      Except.ok (some frame10) := by
  refine ⟨by decide, by decide, ?_⟩
  have h : overlay_garment catalog0 frame10 kpHipsWide "pants" "male" 100 =
      Except.ok none := by rfl
  rw [h]
  simp

/-- C8 amended: the anchor is clamped into [0, max 0 (frameDim - rectDim)] on
each axis, and it is left unchanged whenever it already lies in
[0, frameDim - rectDim]; when the resized rectangle is larger than the frame
on either axis the anchor clamps to 0 on that axis and the rectangle is
cropped to the frame - the call is not treated as unplaceable: it proceeds
past every guard, and (the routine being truncated) returns None rather than
the input frame. -/
theorem overlay_clamp_and_crop :
    (∀ raw rect dim : ℤ,
      0 ≤ clampPos raw rect dim ∧ clampPos raw rect dim ≤ max 0 (dim - rect) ∧
      (0 ≤ raw → raw ≤ dim - rect → clampPos raw rect dim = raw)) ∧
    (∀ (frame : Image3) (gimg : GarmentImg) (p : Placement),
      gimg.h ≠ 0 → gimg.w ≠ 0 → 0 < p.gw → 0 < p.gh →
      0 < frame.h → 0 < frame.w →
      ((frame.w : ℤ) < p.gw ∨ (frame.h : ℤ) < p.gh) →
      overlayFinish frame gimg p = .ok none) := by
  constructor
  · intro raw rect dim
    unfold clampPos
    exact ⟨by omega, by omega, fun h1 h2 => by omega⟩
  · intro frame gimg p hg1 hg2 hw hh hfh hfw _hover
    exact overlayFinish_ok_none frame gimg p hg1 hg2 hw hh hfh hfw

theorem overlay_clamp_and_crop_w :
    overlayFinish frame10 garment0 ⟨60, 120, 0, 0⟩ = Except.ok none :=
  overlay_clamp_and_crop.2 frame10 garment0 ⟨60, 120, 0, 0⟩ (by decide) (by decide)
    (by decide) (by decide) (by decide) (by decide) (Or.inl (by decide))

/-- C1: at a fully successful upper-body configuration (both shoulders
present, asset present, rectangle positive and inside the frame) the code
reaches the end of overlay_garment - whose compositing step after the final
'# Apply' comment is missing - and returns None, not a frame. -/
theorem overlay_success_returns_none :
    overlay_garment catalog0 frame640 kpUpper "tshirt" "male" 100 = Except.ok none ∧
    ¬∃ fr : Image3, overlay_garment catalog0 frame640 kpUpper "tshirt" "male" 100 =
      Except.ok (some fr) := by
  have h : overlay_garment catalog0 frame640 kpUpper "tshirt" "male" 100 =
      Except.ok none := by rfl
  refine ⟨h, ?_⟩
  rintro ⟨fr, hc⟩
  rw [h] at hc
  simp at hc

/-- C2: on the successful lower-body path no alpha compositing happens: the
truncated routine returns None instead of a blended copy of the frame. -/
theorem overlay_no_compositing :
    overlay_garment catalog0 frame640 kpPants "pants" "male" 100 = Except.ok none ∧
    ¬∃ fr : Image3, overlay_garment catalog0 frame640 kpPants "pants" "male" 100 =
      Except.ok (some fr) := by
  have h : overlay_garment catalog0 frame640 kpPants "pants" "male" 100 =
      Except.ok none := by rfl
  refine ⟨h, ?_⟩
  rintro ⟨fr, hc⟩
  rw [h] at hc
  simp at hc

/-- C9: shoulders sharing an x coordinate make the computed garment width 0,
and the code calls cv2.resize with that empty target size before its
non-positive-rectangle guard, so the call raises instead of returning the
unmodified frame. -/
theorem overlay_zero_width_raises :
    (upperPlacement ⟨100, 50, 0, 0⟩ ⟨100, 80, 0, 0⟩ none none).gw = 0 ∧
    overlay_garment catalog0 frame640 kpUpperDegen "tshirt" "male" 100 =
      Except.error () :=
  ⟨by decide, by rfl⟩
